import Mathlib

/-!
# Verification of the bounded tool-calling loop

Shallow embedding of the LangGraph agent in `main_recursion_fixed.py`:
the conversation state, the continuation policy `should_continue`, the
`chat` node, the `increment_counter` node, the tool-dispatch node and the
loop wiring of `create_recursion_safe_graph`, together with the tool
registry assembled by `create_guaranteed_tools`.

Messages are the tagged variant the code manipulates through
`langchain_core` message objects: a role, a textual content and a
(possibly empty) list of tool invocation requests.  `hasattr(m,
'tool_calls') and m.tool_calls` on a message without tool calls is the
same as an empty `tool_calls` list, so every message carries the list.
External effects (the OpenAI model call, the network side of the search
and Salesforce tools) are parameters of the corresponding definitions.
-/

namespace LangchainProject

inductive Role where
  | system
  | user
  | assistant
  | tool
  deriving DecidableEq, Repr

/-- A tool invocation request attached to an assistant message:
`name` + `arguments` (+ the call id used to pair results to requests). -/
structure ToolCall where
  name : String
  args : String
  id : String
  deriving DecidableEq, Repr

/-- A conversation message (`BaseMessage` in `langchain_core`).
`tool_calls = []` models a message without the attribute or with an
empty list, and `tool_call_id` is `""` except on tool-result messages. -/
structure Msg where
  role : Role
  content : String
  tool_calls : List ToolCall
  tool_call_id : String
  deriving DecidableEq, Repr

/-- `ChatState` of `main_recursion_fixed.py`: the message history (under
the `add_messages` append reducer) and the running tool-call counter. -/
structure ChatState where
  messages : List Msg
  tool_call_count : Nat
  deriving DecidableEq, Repr

/-- `MAX_TOOL_CALLS_PER_CONVERSATION = 5` (main_recursion_fixed.py:48). -/
def MAX_TOOL_CALLS_PER_CONVERSATION : Nat := 5

/-- `MAX_RECURSION_LIMIT = 15` (main_recursion_fixed.py:49). -/
def MAX_RECURSION_LIMIT : Nat := 15

/-- The routing decision of the conditional edge: `"tools"` or `END`. -/
inductive Decision where
  | tools
  | stop
  deriving DecidableEq, Repr

/-- `pat in s` for Python strings: `pat` occurs as a contiguous substring. -/
def strContainsSub (s pat : String) : Bool :=
  (List.tails s.data).any (fun t => List.isPrefixOf pat.data t)

/-- The `completion_indicators` list of `should_continue`
(main_recursion_fixed.py:325-329). -/
def completion_indicators : List String :=
  ["complete", "finished", "done", "delivered", "execution complete",
   "request finished", "results delivered", "status check complete",
   "query execution complete", "description request finished"]

/-- `should_continue` (main_recursion_fixed.py:298-335).  `none` models
the `IndexError` that `messages[-1]` raises on an empty list; the
tool-call-ceiling check happens before the list is indexed. -/
def should_continue (state : ChatState) : Option Decision :=
  if MAX_TOOL_CALLS_PER_CONVERSATION ≤ state.tool_call_count then
    some .stop
  else
    match state.messages.getLast? with
    | none => none
    | some last =>
      if last.tool_calls.isEmpty = false then some .tools
      else if (last.content != "") &&
          completion_indicators.any
            (fun ind => strContainsSub last.content.toLower ind) then
        some .stop
      else some .stop

/-! ## Tool registry (`create_guaranteed_tools`) -/

/-- A registered tool (`langchain_core.tools.Tool`): unique name,
description, and a synchronous function from a text argument to a text
result or a failure (`Except.error` models a raised exception). -/
structure ToolDescriptor where
  name : String
  description : String
  func : String → Except String String

/-- The environment the registry construction reads
(`os.getenv`; `none` models an unset or empty variable), plus the
outcome of the two external initializations it attempts: whether the
`TavilySearch` constructor succeeds, and the behavior of the external
services backing the Tavily and Salesforce network calls. -/
structure EnvConfig where
  tavily_api_key : Option String
  tavily_init_ok : Bool
  salesforce_username : Option String
  salesforce_password : Option String
  external_call : String → String → Except String String

/-- The fallback `search` tool body (main_recursion_fixed.py:69-77). -/
def fallback_search (query : String) : Except String String :=
  .ok ("🔍 **Search Results for: '" ++ query ++ "'**\n\n" ++
    "I don't have real-time internet access in this environment, but I can help you with:\n" ++
    "• General information and analysis\n" ++
    "• Salesforce operations and queries\n" ++
    "• Technical guidance and best practices\n\n" ++
    "📝 **Regarding your query**: Based on my knowledge, I can provide general guidance about " ++
    query.toLower ++ ". " ++
    "For the most current information, you may want to check official sources directly.\n\n" ++
    "**This completes the search request.**")

/-- `create_guaranteed_search_tool` (main_recursion_fixed.py:52-83): a
`TavilySearch` tool when the API key is set and its constructor does not
raise, otherwise the fallback `search` tool. -/
def create_guaranteed_search_tool (cfg : EnvConfig) : ToolDescriptor :=
  if cfg.tavily_api_key.isSome && cfg.tavily_init_ok then
    { name := "tavily_search",
      description := "A search engine optimized for comprehensive, accurate, and trusted results.",
      func := cfg.external_call "tavily_search" }
  else
    { name := "search",
      description := "Search for current information. Use this when you need recent data or current events.",
      func := fallback_search }

/-- `validate_platform_config` (salesforce_platform_ready.py:246-258):
true exactly when both the username and the password are present. -/
def validate_platform_config (cfg : EnvConfig) : Bool :=
  cfg.salesforce_username.isSome && cfg.salesforce_password.isSome

/-- `create_guaranteed_salesforce_tools` (main_recursion_fixed.py:86-244):
returns `[]` when Salesforce is not configured, otherwise the three
tools `salesforce_status`, `salesforce_query`, `salesforce_describe`
(whose bodies reach the external Salesforce service). -/
def create_guaranteed_salesforce_tools (cfg : EnvConfig) : List ToolDescriptor :=
  if validate_platform_config cfg = false then []
  else
    [{ name := "salesforce_status",
       description := "Check Salesforce integration status and available capabilities. Use when asked about Salesforce connectivity or available operations.",
       func := cfg.external_call "salesforce_status" },
     { name := "salesforce_query",
       description := "Execute SOQL queries against Salesforce. Use standard SOQL syntax. Always provide complete query like 'SELECT Id, Name FROM Account LIMIT 5'.",
       func := cfg.external_call "salesforce_query" },
     { name := "salesforce_describe",
       description := "Get detailed information about Salesforce objects including fields and metadata. Use standard object API names like 'Account', 'Contact', 'Opportunity'.",
       func := cfg.external_call "salesforce_describe" }]

/-- The `help` tool body (main_recursion_fixed.py:261-268); at call time
the closed-over `tools` list already contains the help tool itself, so
the descriptor list it formats is passed in as `toolLines`. -/
def help_tool (toolLines : List String) (total : Nat) : Except String String :=
  .ok ("🤖 **Available Tools - COMPLETE LIST**\n\n" ++
    String.intercalate "\n" (toolLines.map (fun t => "• " ++ t)) ++
    "\n\n📊 **Total Tools**: " ++ toString total ++
    "\n🔧 **System**: Operational\n🌐 **Platform**: LangGraph\n\n" ++
    "**Help request complete. All available tools listed above.**")

/-- `tool.description.split('.')[0]` — the text before the first dot. -/
def descriptionHead (s : String) : String :=
  (s.splitOn ".").headD ""

/-- The `help` tool descriptor appended last by `create_guaranteed_tools`
(main_recursion_fixed.py:270-274). -/
def help_descriptor (others : List ToolDescriptor) : ToolDescriptor :=
  { name := "help",
    description := "Get help and see available tools and capabilities. Use when user asks what you can do or needs guidance.",
    func := fun _ =>
      let all := others ++ [help_descriptor_stub]
      help_tool (all.map (fun t => t.name ++ ": " ++ descriptionHead t.description))
        all.length }
where
  /-- The name/description the help tool reports for itself. -/
  help_descriptor_stub : ToolDescriptor :=
    { name := "help",
      description := "Get help and see available tools and capabilities. Use when user asks what you can do or needs guidance.",
      func := fun _ => .error "unreachable" }

/-- `create_guaranteed_tools` (main_recursion_fixed.py:247-277): always
the search tool, then the Salesforce tools when configured, then the
always-available `help` tool. -/
def create_guaranteed_tools (cfg : EnvConfig) : List ToolDescriptor :=
  let base := create_guaranteed_search_tool cfg :: create_guaranteed_salesforce_tools cfg
  base ++ [help_descriptor base]

/-! ## The `chat` node -/

/-- A node's returned state update: under `ChatState`'s reducers the
`messages` entry is appended to the history by `add_messages` and
`tool_call_count` overwrites the counter.  `chat_node` returns exactly
these two keys (main_recursion_fixed.py:387-390, 398-401). -/
structure NodeUpdate where
  messages : List Msg
  tool_call_count : Nat
  deriving DecidableEq, Repr

/-- Capability phrases for the welcome message
(main_recursion_fixed.py:366-375). -/
def welcome_capabilities (reg : List ToolDescriptor) : List String :=
  (if reg.any (fun t => strContainsSub t.name "search") then
    ["search for information"] else []) ++
  (if reg.any (fun t => strContainsSub t.name "salesforce") then
    ["work with your Salesforce org (execute queries, describe objects, check status)"]
   else []) ++
  ["provide help and guidance"]

/-- The synthesized welcome/context `AIMessage`
(main_recursion_fixed.py:377-381). -/
def welcome_message (reg : List ToolDescriptor) : Msg :=
  { role := .assistant,
    content := "Hello! I'm your AI assistant with " ++ toString reg.length ++
      " tools available. I can " ++
      String.intercalate ", " (welcome_capabilities reg) ++
      ". How can I help you today?",
    tool_calls := [], tool_call_id := "" }

/-- The welcome-injection test of `chat_node`
(main_recursion_fixed.py:365): message count at most one, or no message
whose content contains the substring `"assistant with"`. -/
def needs_welcome (msgs : List Msg) : Bool :=
  decide (msgs.length ≤ 1) ||
    !(msgs.any (fun m => strContainsSub m.content "assistant with"))

/-- The message list `chat_node` hands to `llm.invoke`
(main_recursion_fixed.py:361-385): the state's messages, with the
welcome message prepended when `needs_welcome` holds. -/
def chat_model_input (reg : List ToolDescriptor) (msgs : List Msg) : List Msg :=
  if needs_welcome msgs then welcome_message reg :: msgs else msgs

/-- The synthesized error `AIMessage` of `chat_node`'s `except` branch
(main_recursion_fixed.py:393-397). -/
def chat_error_message (e : String) : Msg :=
  { role := .assistant,
    content := "I encountered an error: " ++ e ++ ". " ++
      "I can still help with Salesforce operations, searches, or general questions. " ++
      "Please try rephrasing your request or ask for help to see my capabilities.",
    tool_calls := [], tool_call_id := "" }

/-- `chat_node` (main_recursion_fixed.py:358-401).  `model` is the
external LLM call (`llm.invoke`); `Except.error e` models a raised
exception, caught by the node's `except` branch.  Both branches return
the unchanged `tool_call_count` and a single-message update. -/
def chat_node (reg : List ToolDescriptor)
    (model : List Msg → Except String Msg) (state : ChatState) : NodeUpdate :=
  match model (chat_model_input reg state.messages) with
  | .ok response => { messages := [response], tool_call_count := state.tool_call_count }
  | .error e =>
      { messages := [chat_error_message e], tool_call_count := state.tool_call_count }

/-- Apply a node update to the state: `add_messages` appends the new
messages; the returned counter replaces the old one. -/
def apply_update (st : ChatState) (u : NodeUpdate) : ChatState :=
  { messages := st.messages ++ u.messages, tool_call_count := u.tool_call_count }

/-- One execution of the `chat` node as a state transformer. -/
def chat_step (reg : List ToolDescriptor)
    (model : List Msg → Except String Msg) (st : ChatState) : ChatState :=
  apply_update st (chat_node reg model st)

/-- `increment_tool_count` (main_recursion_fixed.py:452-457): the node
returns `{**state, "tool_call_count": count + 1}`; re-sending the
existing messages through `add_messages` merges them by id, so the
effective update bumps the counter and leaves the history unchanged. -/
def increment_tool_count (st : ChatState) : ChatState :=
  { st with tool_call_count := st.tool_call_count + 1 }

/-! ## Tool dispatch

`create_recursion_safe_graph` wires the `tools` node to
`ToolNode(GUARANTEED_TOOLS)` (main_recursion_fixed.py:466), a dispatcher
imported from the `langgraph` library, whose code is not part of this
repository. -/

/-- Modelled from the spec: the tool-result message synthesized by the
dispatcher (`ToolNode`, not in the repository sources) when the
requested tool name is not in the registry — "synthesize a tool-result
Message reporting \"unknown tool\" (never raise)". -/
def unknown_tool_result (req : ToolCall) : Msg :=
  { role := .tool,
    content := "Error: unknown tool '" ++ req.name ++ "'.",
    tool_calls := [], tool_call_id := req.id }

/-- Modelled from the spec: the tool-result message synthesized by the
dispatcher when the tool's function fails — "a clearly-marked failure
description instead of propagating". -/
def tool_failure_result (req : ToolCall) (e : String) : Msg :=
  { role := .tool,
    content := "Error: " ++ e,
    tool_calls := [], tool_call_id := req.id }

/-- Modelled from the spec: dispatch of a single tool invocation request
by `ToolNode` (the dispatcher itself is library code, absent from the
repository sources): look the name up in the registry; unknown names and
tool failures become synthesized tool-result messages, a success becomes
a tool-result message carrying the tool's text result. -/
def dispatch_one (reg : List ToolDescriptor) (req : ToolCall) : Msg :=
  match reg.find? (fun t => t.name == req.name) with
  | none => unknown_tool_result req
  | some t =>
    match t.func req.args with
    | .ok r => { role := .tool, content := r, tool_calls := [], tool_call_id := req.id }
    | .error e => tool_failure_result req e

/-- Modelled from the spec: `dispatch(requests, registry)` — one
tool-result message per request, in request order. -/
def dispatch (reg : List ToolDescriptor) (reqs : List ToolCall) : List Msg :=
  reqs.map (dispatch_one reg)

/-- The tool invocation requests the `tools` node reads: the
`tool_calls` of the last message of the history. -/
def pending_requests (st : ChatState) : List ToolCall :=
  (st.messages.getLast?.map Msg.tool_calls).getD []

/-- One execution of the `tools` node: append one tool-result message
per request of the last message; the node's update carries no
`tool_call_count` key, so the counter is unchanged. -/
def tools_step (reg : List ToolDescriptor) (st : ChatState) : ChatState :=
  { st with messages := st.messages ++ dispatch reg (pending_requests st) }

/-! ## The loop driver (`create_recursion_safe_graph`) -/

/-- The compiled graph of `create_recursion_safe_graph`
(main_recursion_fixed.py:460-488) run to completion: entry at `chat`;
the conditional edge `should_continue` routes `"tools"` through
`increment_counter` then the `tools` node and back to `chat`, and `END`
out of the loop.  `fuel` bounds the number of `chat` iterations (the
harness's recursion limit); `none` models both fuel exhaustion and the
`IndexError` branch of `should_continue`. -/
def run_loop (reg : List ToolDescriptor) (model : List Msg → Except String Msg) :
    Nat → ChatState → Option ChatState
  | 0, _ => none
  | fuel + 1, st =>
    let st1 := chat_step reg model st
    match should_continue st1 with
    | some .tools => run_loop reg model fuel (tools_step reg (increment_tool_count st1))
    | some .stop => some st1
    | none => none

/-! ## Basic lemmas about the policy and the nodes -/

theorem should_continue_of_ceiling (st : ChatState)
    (h : MAX_TOOL_CALLS_PER_CONVERSATION ≤ st.tool_call_count) :
    should_continue st = some Decision.stop := by
  unfold should_continue
  simp [h]

theorem should_continue_of_tool_calls (st : ChatState) (last : Msg)
    (h : st.tool_call_count < MAX_TOOL_CALLS_PER_CONVERSATION)
    (hl : st.messages.getLast? = some last) (ht : last.tool_calls ≠ []) :
    should_continue st = some Decision.tools := by
  unfold should_continue
  rw [if_neg (by omega), hl]
  simp [List.isEmpty_iff, ht]

theorem should_continue_of_no_tool_calls (st : ChatState) (last : Msg)
    (h : st.tool_call_count < MAX_TOOL_CALLS_PER_CONVERSATION)
    (hl : st.messages.getLast? = some last) (ht : last.tool_calls = []) :
    should_continue st = some Decision.stop := by
  unfold should_continue
  rw [if_neg (by omega), hl]
  simp [List.isEmpty_iff, ht]

theorem should_continue_tools_count_lt (st : ChatState)
    (h : should_continue st = some Decision.tools) :
    st.tool_call_count < MAX_TOOL_CALLS_PER_CONVERSATION := by
  by_contra hc
  rw [should_continue_of_ceiling st (by omega)] at h
  simp at h

theorem chat_step_of_ok (reg : List ToolDescriptor)
    (model : List Msg → Except String Msg) (st : ChatState) (r : Msg)
    (h : model (chat_model_input reg st.messages) = .ok r) :
    chat_step reg model st =
      { messages := st.messages ++ [r], tool_call_count := st.tool_call_count } := by
  unfold chat_step chat_node apply_update
  rw [h]

theorem chat_step_of_error (reg : List ToolDescriptor)
    (model : List Msg → Except String Msg) (st : ChatState) (e : String)
    (h : model (chat_model_input reg st.messages) = .error e) :
    chat_step reg model st =
      { messages := st.messages ++ [chat_error_message e],
        tool_call_count := st.tool_call_count } := by
  unfold chat_step chat_node apply_update
  rw [h]

theorem chat_step_count (reg : List ToolDescriptor)
    (model : List Msg → Except String Msg) (st : ChatState) :
    (chat_step reg model st).tool_call_count = st.tool_call_count := by
  unfold chat_step chat_node apply_update
  cases model (chat_model_input reg st.messages) <;> rfl

theorem chat_step_messages (reg : List ToolDescriptor)
    (model : List Msg → Except String Msg) (st : ChatState) :
    ∃ m, (chat_step reg model st).messages = st.messages ++ [m] := by
  unfold chat_step chat_node apply_update
  cases model (chat_model_input reg st.messages) <;> exact ⟨_, rfl⟩

theorem tools_step_count (reg : List ToolDescriptor) (st : ChatState) :
    (tools_step reg st).tool_call_count = st.tool_call_count := rfl

/-! ## C1 — the continuation policy -/

/-- C1: on every state with a non-empty message list, `should_continue`
returns `END` whenever `tool_call_count ≥ MAX_TOOL_CALLS_PER_CONVERSATION
= 5`, even when the last message carries tool calls (the ceiling check
comes first); below the ceiling it routes to `"tools"` exactly when the
last message carries at least one tool call, and to `END` otherwise. -/
theorem should_continue_policy (st : ChatState) (h : st.messages ≠ []) :
    (MAX_TOOL_CALLS_PER_CONVERSATION ≤ st.tool_call_count →
      should_continue st = some Decision.stop) ∧
    (st.tool_call_count < MAX_TOOL_CALLS_PER_CONVERSATION →
      should_continue st =
        some (if (st.messages.getLast h).tool_calls = [] then Decision.stop
              else Decision.tools)) := by
  constructor
  · exact fun h5 => should_continue_of_ceiling st h5
  · intro h5
    rcases hl : st.messages.getLast? with _ | last
    · simp [List.getLast?_eq_none_iff] at hl
      exact absurd hl h
    · rw [List.getLast?_eq_getLast st.messages h] at hl
      cases hl
      by_cases ht : (st.messages.getLast h).tool_calls = []
      · rw [should_continue_of_no_tool_calls st _ h5
          (List.getLast?_eq_getLast st.messages h) ht, if_pos ht]
      · rw [should_continue_of_tool_calls st _ h5
          (List.getLast?_eq_getLast st.messages h) ht, if_neg ht]

/-- Witness for C1 at a concrete state: a two-message history whose last
message carries one tool call, counter 3 (below the ceiling). -/
theorem should_continue_policy_witness :
    (⟨[⟨.user, "hi", [], ""⟩,
       ⟨.assistant, "", [⟨"search", "query=x", "call1"⟩], ""⟩],
      3⟩ : ChatState).messages ≠ [] ∧
    should_continue
      ⟨[⟨.user, "hi", [], ""⟩,
        ⟨.assistant, "", [⟨"search", "query=x", "call1"⟩], ""⟩],
       3⟩ = some Decision.tools := by
  refine ⟨by decide, ?_⟩
  have h := (should_continue_policy
    ⟨[⟨.user, "hi", [], ""⟩,
      ⟨.assistant, "", [⟨"search", "query=x", "call1"⟩], ""⟩],
     3⟩ (by decide)).2 (by decide)
  rw [h]
  rfl

theorem increment_tool_count_count (st : ChatState) :
    (increment_tool_count st).tool_call_count = st.tool_call_count + 1 := rfl

theorem should_continue_isSome (st : ChatState) (h : st.messages ≠ []) :
    (should_continue st).isSome := by
  rcases hl : st.messages.getLast? with _ | last
  · simp [List.getLast?_eq_none_iff] at hl
    exact absurd hl h
  · by_cases h5 : MAX_TOOL_CALLS_PER_CONVERSATION ≤ st.tool_call_count
    · rw [should_continue_of_ceiling st h5]; rfl
    · by_cases ht : last.tool_calls = []
      · rw [should_continue_of_no_tool_calls st last (by omega) hl ht]; rfl
      · rw [should_continue_of_tool_calls st last (by omega) hl ht]; rfl

theorem run_loop_succ (reg : List ToolDescriptor)
    (model : List Msg → Except String Msg) (fuel : Nat) (st : ChatState) :
    run_loop reg model (fuel + 1) st =
      match should_continue (chat_step reg model st) with
      | some .tools =>
          run_loop reg model fuel (tools_step reg (increment_tool_count (chat_step reg model st)))
      | some .stop => some (chat_step reg model st)
      | none => none := rfl

theorem run_loop_fuel_sufficient (reg : List ToolDescriptor)
    (model : List Msg → Except String Msg) :
    ∀ (fuel : Nat) (st : ChatState),
      MAX_TOOL_CALLS_PER_CONVERSATION - st.tool_call_count < fuel →
      (run_loop reg model fuel st).isSome := by
  intro fuel
  induction fuel with
  | zero => intro st h; omega
  | succ n ih =>
    intro st h
    obtain ⟨m, hm⟩ := chat_step_messages reg model st
    have hne : (chat_step reg model st).messages ≠ [] := by
      rw [hm]; simp
    rw [run_loop_succ]
    rcases hsc : should_continue (chat_step reg model st) with _ | d
    · have := should_continue_isSome _ hne
      rw [hsc] at this
      simp at this
    · cases d with
      | stop => rfl
      | tools =>
        show (run_loop reg model n
          (tools_step reg (increment_tool_count (chat_step reg model st)))).isSome
        apply ih
        have h1 := should_continue_tools_count_lt _ hsc
        rw [chat_step_count] at h1
        rw [tools_step_count, increment_tool_count_count, chat_step_count]
        omega

/-! ## C2 — termination of the loop driver -/

/-- C2: for every initial state and every model behavior (including
arbitrary failures and a model that requests tools on every turn), the
loop driver run with the configured recursion limit of 15 iterations
reaches a final state: `run_loop` always returns `some`, never exhausts
its fuel. -/
theorem run_loop_terminates (reg : List ToolDescriptor)
    (model : List Msg → Except String Msg) (st : ChatState) :
    (run_loop reg model MAX_RECURSION_LIMIT st).isSome := by
  apply run_loop_fuel_sufficient
  show MAX_TOOL_CALLS_PER_CONVERSATION - st.tool_call_count < MAX_RECURSION_LIMIT
  unfold MAX_TOOL_CALLS_PER_CONVERSATION MAX_RECURSION_LIMIT
  omega

/-! ## C3 — the counter invariant along the graph's node steps -/

/-- One node execution of the compiled graph: the `chat` node (from the
entry point or after `tools`), the `increment_counter` node (reached
only when the conditional edge routed `"tools"`), or the `tools` node. -/
inductive NodeStep (reg : List ToolDescriptor) (model : List Msg → Except String Msg) :
    ChatState → ChatState → Prop where
  | chat (st : ChatState) : NodeStep reg model st (chat_step reg model st)
  | increment (st : ChatState) :
      should_continue st = some Decision.tools →
      NodeStep reg model st (increment_tool_count st)
  | tools (st : ChatState) : NodeStep reg model st (tools_step reg st)

theorem nodeStep_count (reg : List ToolDescriptor)
    (model : List Msg → Except String Msg) (s t : ChatState)
    (h : NodeStep reg model s t) :
    s.tool_call_count ≤ t.tool_call_count ∧
      (s.tool_call_count ≤ MAX_TOOL_CALLS_PER_CONVERSATION →
        t.tool_call_count ≤ MAX_TOOL_CALLS_PER_CONVERSATION) := by
  cases h with
  | chat => rw [chat_step_count]; exact ⟨le_refl _, id⟩
  | increment hsc =>
      have hlt := should_continue_tools_count_lt s hsc
      rw [increment_tool_count_count]
      exact ⟨by omega, fun _ => by omega⟩
  | tools => rw [tools_step_count]; exact ⟨le_refl _, id⟩

/-- C3: along every sequence of node executions of the loop (chat,
counter increment, tool dispatch), the tool-call counter is monotonically
non-decreasing, and it never exceeds the ceiling of 5: every state
reachable from a state within the ceiling — in particular every final
state of a run started at counter 0 — satisfies
`tool_call_count ≤ MAX_TOOL_CALLS_PER_CONVERSATION`. -/
theorem tool_call_count_invariant (reg : List ToolDescriptor)
    (model : List Msg → Except String Msg) (s t : ChatState)
    (h : Relation.ReflTransGen (NodeStep reg model) s t) :
    s.tool_call_count ≤ t.tool_call_count ∧
      (s.tool_call_count ≤ MAX_TOOL_CALLS_PER_CONVERSATION →
        t.tool_call_count ≤ MAX_TOOL_CALLS_PER_CONVERSATION) := by
  induction h with
  | refl => exact ⟨le_refl _, id⟩
  | tail _ hbc ih =>
      have hstep := nodeStep_count reg model _ _ hbc
      exact ⟨le_trans ih.1 hstep.1, fun h0 => hstep.2 (ih.2 h0)⟩

/-- A concrete model behavior used by the witnesses: the external LLM
call fails with a network error. -/
def offlineModel : List Msg → Except String Msg :=
  fun _ => .error "Connection error"

/-- Witness for C3: a one-step run (a single execution of the `chat`
node) from the empty initial state. -/
theorem tool_call_count_invariant_witness :
    (⟨[], 0⟩ : ChatState).tool_call_count ≤
        (chat_step [] offlineModel ⟨[], 0⟩).tool_call_count ∧
      ((⟨[], 0⟩ : ChatState).tool_call_count ≤ MAX_TOOL_CALLS_PER_CONVERSATION →
        (chat_step [] offlineModel ⟨[], 0⟩).tool_call_count ≤
          MAX_TOOL_CALLS_PER_CONVERSATION) :=
  tool_call_count_invariant [] offlineModel _ _
    (Relation.ReflTransGen.single (NodeStep.chat _))

/-! ## C4 — a persistently tool-calling model hits the ceiling exactly -/

theorem run_loop_ceiling_aux (reg : List ToolDescriptor)
    (model : List Msg → Except String Msg)
    (hm : ∀ ms, ∃ r, model ms = Except.ok r ∧ r.tool_calls ≠ []) :
    ∀ (fuel : Nat) (st : ChatState),
      st.tool_call_count ≤ MAX_TOOL_CALLS_PER_CONVERSATION →
      MAX_TOOL_CALLS_PER_CONVERSATION - st.tool_call_count < fuel →
      ∃ fin, run_loop reg model fuel st = some fin ∧
        fin.tool_call_count = MAX_TOOL_CALLS_PER_CONVERSATION := by
  intro fuel
  induction fuel with
  | zero => intro st _ h; omega
  | succ n ih =>
    intro st hle h
    obtain ⟨r, hr, hrt⟩ := hm (chat_model_input reg st.messages)
    have hcs := chat_step_of_ok reg model st r hr
    by_cases h5 : st.tool_call_count = MAX_TOOL_CALLS_PER_CONVERSATION
    · have hsc : should_continue (chat_step reg model st) = some Decision.stop := by
        apply should_continue_of_ceiling
        rw [chat_step_count]
        omega
      refine ⟨chat_step reg model st, ?_, ?_⟩
      · rw [run_loop_succ, hsc]
      · rw [chat_step_count]
        omega
    · have hlast : (chat_step reg model st).messages.getLast? = some r := by
        rw [hcs]
        simp
      have hsc : should_continue (chat_step reg model st) = some Decision.tools := by
        refine should_continue_of_tool_calls _ r ?_ hlast hrt
        rw [chat_step_count]
        omega
      rw [run_loop_succ, hsc]
      have hc2 : (tools_step reg (increment_tool_count
          (chat_step reg model st))).tool_call_count = st.tool_call_count + 1 := by
        rw [tools_step_count, increment_tool_count_count, chat_step_count]
      exact ih _ (by omega) (by omega)

/-- C4: if the model issues at least one tool invocation request on
every turn, the loop started at `tool_call_count = 0` is forcibly
stopped by the ceiling regardless of the model's behavior, and the
final state's counter equals exactly 5. -/
theorem persistent_tool_calls_hit_ceiling (reg : List ToolDescriptor)
    (model : List Msg → Except String Msg) (init : List Msg)
    (hm : ∀ ms, ∃ r, model ms = Except.ok r ∧ r.tool_calls ≠ []) :
    ∃ fin, run_loop reg model MAX_RECURSION_LIMIT ⟨init, 0⟩ = some fin ∧
      fin.tool_call_count = MAX_TOOL_CALLS_PER_CONVERSATION :=
  run_loop_ceiling_aux reg model hm MAX_RECURSION_LIMIT ⟨init, 0⟩
    (by show (0 : Nat) ≤ MAX_TOOL_CALLS_PER_CONVERSATION; decide)
    (by show MAX_TOOL_CALLS_PER_CONVERSATION - (0 : Nat) < MAX_RECURSION_LIMIT; decide)

/-- A concrete model behavior that requests the `search` tool on every
single turn, used by the C4 witness. -/
def alwaysToolModel : List Msg → Except String Msg :=
  fun _ => .ok ⟨.assistant, "Let me check that for you",
    [⟨"search", "query=x", "call1"⟩], ""⟩

/-- Witness for C4: a concrete run from one user message under
`alwaysToolModel` with an empty registry. -/
theorem persistent_tool_calls_hit_ceiling_witness :
    ∃ fin, run_loop [] alwaysToolModel MAX_RECURSION_LIMIT
        ⟨[⟨.user, "hi", [], ""⟩], 0⟩ = some fin ∧
      fin.tool_call_count = MAX_TOOL_CALLS_PER_CONVERSATION :=
  persistent_tool_calls_hit_ceiling [] alwaysToolModel [⟨.user, "hi", [], ""⟩]
    (fun _ => ⟨⟨.assistant, "Let me check that for you",
      [⟨"search", "query=x", "call1"⟩], ""⟩, rfl, by simp⟩)

/-! ## C5 — one increment per dispatch iteration, not per tool call -/

/-- C5: for any state whose last message carries `N ≥ 1` tool invocation
requests, one pass through the dispatch path of the graph
(`increment_counter` then `tools`) raises the counter by exactly 1 —
independent of `N` — while appending `N` tool-result messages. -/
theorem increment_once_per_dispatch (reg : List ToolDescriptor) (st : ChatState)
    (h : 1 ≤ (pending_requests st).length) :
    (tools_step reg (increment_tool_count st)).tool_call_count =
        st.tool_call_count + 1 ∧
      (tools_step reg (increment_tool_count st)).messages.length =
        st.messages.length + (pending_requests st).length := by
  constructor
  · rw [tools_step_count, increment_tool_count_count]
  · show (st.messages ++ dispatch reg (pending_requests (increment_tool_count st))).length = _
    have hp : pending_requests (increment_tool_count st) = pending_requests st := rfl
    rw [hp]
    simp [dispatch]

/-- Witness for C5: a state whose last message carries three tool
invocation requests; the counter goes up by 1 and the history by 3. -/
theorem increment_once_per_dispatch_witness :
    1 ≤ (pending_requests ⟨[⟨.assistant, "",
        [⟨"search", "a", "c1"⟩, ⟨"help", "", "c2"⟩, ⟨"nonexistent_tool", "b", "c3"⟩],
        ""⟩], 2⟩).length ∧
    (tools_step [] (increment_tool_count ⟨[⟨.assistant, "",
        [⟨"search", "a", "c1"⟩, ⟨"help", "", "c2"⟩, ⟨"nonexistent_tool", "b", "c3"⟩],
        ""⟩], 2⟩)).tool_call_count = 2 + 1 ∧
    (tools_step [] (increment_tool_count ⟨[⟨.assistant, "",
        [⟨"search", "a", "c1"⟩, ⟨"help", "", "c2"⟩, ⟨"nonexistent_tool", "b", "c3"⟩],
        ""⟩], 2⟩)).messages.length = 1 + 3 := by
  refine ⟨by decide, ?_⟩
  have h := increment_once_per_dispatch [] ⟨[⟨.assistant, "",
    [⟨"search", "a", "c1"⟩, ⟨"help", "", "c2"⟩, ⟨"nonexistent_tool", "b", "c3"⟩],
    ""⟩], 2⟩ (by decide)
  exact h

/-! ## C6 — the tool registry is never empty -/

theorem search_tool_name_matches (cfg : EnvConfig) :
    strContainsSub (create_guaranteed_search_tool cfg).name "search" = true := by
  unfold create_guaranteed_search_tool
  split
  · show strContainsSub "tavily_search" "search" = true
    decide
  · show strContainsSub "search" "search" = true
    decide

theorem help_descriptor_name (others : List ToolDescriptor) :
    (help_descriptor others).name = "help" := rfl

/-- C6: for every environment (Tavily key present or absent, Tavily
initialization succeeding or raising, Salesforce credentials present or
absent), the registry built by `create_guaranteed_tools` is non-empty,
contains a search tool (name containing `"search"`) and the
always-available `help` tool; and missing Salesforce credentials make
`create_guaranteed_salesforce_tools` return the empty list instead of
raising. -/
theorem registry_never_empty (cfg : EnvConfig) :
    create_guaranteed_tools cfg ≠ [] ∧
    (create_guaranteed_tools cfg).any
      (fun t => strContainsSub t.name "search") = true ∧
    (create_guaranteed_tools cfg).any (fun t => t.name == "help") = true ∧
    (cfg.salesforce_username = none ∨ cfg.salesforce_password = none →
      create_guaranteed_salesforce_tools cfg = []) := by
  refine ⟨?_, ?_, ?_, ?_⟩
  · unfold create_guaranteed_tools
    simp
  · unfold create_guaranteed_tools
    simp only [List.any_append, List.any_cons, Bool.or_eq_true]
    exact Or.inl (Or.inl (search_tool_name_matches cfg))
  · unfold create_guaranteed_tools
    simp only [List.any_append, List.any_cons, List.any_nil, Bool.or_eq_true]
    right
    left
    rw [help_descriptor_name]
    decide
  · intro hcred
    have hv : validate_platform_config cfg = false := by
      unfold validate_platform_config
      rcases hcred with h | h <;> simp [h]
    unfold create_guaranteed_salesforce_tools
    rw [if_pos hv]

/-- Witness for C6: the fully-unconfigured environment (no Tavily key,
no Salesforce credentials, every external call failing). -/
theorem registry_never_empty_witness :
    create_guaranteed_tools ⟨none, false, none, none, fun _ _ => .error "net"⟩ ≠ [] ∧
    create_guaranteed_salesforce_tools
      ⟨none, false, none, none, fun _ _ => .error "net"⟩ = [] :=
  ⟨(registry_never_empty _).1, (registry_never_empty _).2.2.2 (Or.inl rfl)⟩

/-! ## C7 — model failures are absorbed and then the loop stops -/

/-- C7: whenever the external model call raises, `chat_node` does not
propagate the exception: its update is the synthesized error assistant
message with the counter unchanged, that message carries no tool
invocation requests, and on the resulting state `should_continue`
returns `END`. -/
theorem chat_node_error_containment (reg : List ToolDescriptor)
    (model : List Msg → Except String Msg) (st : ChatState) (e : String)
    (h : model (chat_model_input reg st.messages) = .error e) :
    chat_node reg model st =
      { messages := [chat_error_message e], tool_call_count := st.tool_call_count } ∧
    (chat_error_message e).tool_calls = [] ∧
    should_continue (chat_step reg model st) = some Decision.stop := by
  refine ⟨?_, rfl, ?_⟩
  · unfold chat_node
    rw [h]
  · have hcs := chat_step_of_error reg model st e h
    by_cases h5 : MAX_TOOL_CALLS_PER_CONVERSATION ≤ (chat_step reg model st).tool_call_count
    · exact should_continue_of_ceiling _ h5
    · refine should_continue_of_no_tool_calls _ (chat_error_message e) (by omega) ?_ rfl
      rw [hcs]
      simp

/-- Witness for C7: the offline model failing on the initial one-message
state. -/
theorem chat_node_error_containment_witness :
    chat_node [] offlineModel ⟨[⟨.user, "hi", [], ""⟩], 0⟩ =
      { messages := [chat_error_message "Connection error"], tool_call_count := 0 } ∧
    (chat_error_message "Connection error").tool_calls = [] ∧
    should_continue (chat_step [] offlineModel ⟨[⟨.user, "hi", [], ""⟩], 0⟩) =
      some Decision.stop :=
  chat_node_error_containment [] offlineModel ⟨[⟨.user, "hi", [], ""⟩], 0⟩
    "Connection error" rfl

/-! ## C8 — tool dispatch is total and order-preserving -/

/-- C8 (the dispatcher `ToolNode` is library code, modelled from the
spec): dispatching the `N` tool invocation requests of an assistant
message yields exactly `N` tool-result messages, the `i`-th result
answering the `i`-th request; an unknown tool name yields a synthesized
"unknown tool" result and a failing tool a synthesized failure result —
dispatch is a total function and never propagates an exception. -/
theorem dispatch_total_ordered (reg : List ToolDescriptor) (reqs : List ToolCall) :
    (dispatch reg reqs).length = reqs.length ∧
    (∀ i : Nat, (dispatch reg reqs)[i]? = (reqs[i]?).map (dispatch_one reg)) ∧
    (∀ req : ToolCall, (∀ t ∈ reg, t.name ≠ req.name) →
      dispatch_one reg req = unknown_tool_result req) ∧
    (∀ req t e, reg.find? (fun d => d.name == req.name) = some t →
      t.func req.args = Except.error e →
      dispatch_one reg req = tool_failure_result req e) ∧
    (∀ req : ToolCall, (dispatch_one reg req).role = Role.tool ∧
      (dispatch_one reg req).tool_call_id = req.id) := by
  refine ⟨by simp [dispatch], ?_, ?_, ?_, ?_⟩
  · intro i
    simp [dispatch]
  · intro req hn
    unfold dispatch_one
    rw [List.find?_eq_none.mpr ?_]
    intro t ht
    simpa using hn t ht
  · intro req t e hf he
    have hred : dispatch_one reg req =
        match t.func req.args with
        | Except.ok r =>
            { role := Role.tool, content := r, tool_calls := [], tool_call_id := req.id }
        | Except.error e => tool_failure_result req e := by
      unfold dispatch_one
      rw [hf]
    rw [hred, he]
  · intro req
    unfold dispatch_one
    split
    · exact ⟨rfl, rfl⟩
    · split
      · exact ⟨rfl, rfl⟩
      · exact ⟨rfl, rfl⟩

/-- Witness for C8: a registry holding only the fallback search tool,
dispatching one request for it and one for a nonexistent tool. -/
theorem dispatch_total_ordered_witness :
    (dispatch [⟨"search", "Search for current information.", fallback_search⟩]
      [⟨"search", "x", "c1"⟩, ⟨"nonexistent_tool", "y", "c2"⟩]).length = 2 :=
  (dispatch_total_ordered
    [⟨"search", "Search for current information.", fallback_search⟩]
    [⟨"search", "x", "c1"⟩, ⟨"nonexistent_tool", "y", "c2"⟩]).1

/-! ## C9 — when is the welcome/context message prepended? -/

/-- C9 counterexample: the welcome injection is not first-turn-only.
Starting from a single user message and a model that requests the
`search` tool, one full first turn (chat, counter increment, tool
dispatch) leads to a state with three messages and `tool_call_count = 1`
— a turn after the first — on which `chat_node` prepends the welcome
message to the model input again, because the welcome was never
persisted and no stored message contains the scanned substring
`"assistant with"`. -/
theorem welcome_reprepended_after_first_turn :
    3 ≤ (tools_step [] (increment_tool_count
        (chat_step [] alwaysToolModel ⟨[⟨.user, "hi", [], ""⟩], 0⟩))).messages.length ∧
    1 ≤ (tools_step [] (increment_tool_count
        (chat_step [] alwaysToolModel ⟨[⟨.user, "hi", [], ""⟩], 0⟩))).tool_call_count ∧
    chat_model_input []
        (tools_step [] (increment_tool_count
          (chat_step [] alwaysToolModel ⟨[⟨.user, "hi", [], ""⟩], 0⟩))).messages =
      welcome_message [] ::
        (tools_step [] (increment_tool_count
          (chat_step [] alwaysToolModel ⟨[⟨.user, "hi", [], ""⟩], 0⟩))).messages := by
  refine ⟨by decide, by decide, ?_⟩
  rfl

/-- C9 amended: `chat_node` prepends the welcome message exactly when
the incoming history has at most one message or contains no message
whose content has `"assistant with"` as a substring — a stateless
substring-scanning rule, not a first-turn-only rule; otherwise the model
input is the history unchanged. -/
theorem welcome_injection_rule (reg : List ToolDescriptor) (msgs : List Msg) :
    (chat_model_input reg msgs = welcome_message reg :: msgs ∨
      chat_model_input reg msgs = msgs) ∧
    (chat_model_input reg msgs = welcome_message reg :: msgs ↔
      (msgs.length ≤ 1 ∨
        ∀ m ∈ msgs, strContainsSub m.content "assistant with" = false)) := by
  by_cases hw : needs_welcome msgs = true
  · have hin : chat_model_input reg msgs = welcome_message reg :: msgs := by
      unfold chat_model_input
      rw [if_pos hw]
    refine ⟨Or.inl hin, iff_of_true hin ?_⟩
    simp only [needs_welcome, Bool.or_eq_true, decide_eq_true_eq,
      Bool.not_eq_true', List.any_eq_false, Bool.not_eq_true] at hw
    exact hw
  · have hin : chat_model_input reg msgs = msgs := by
      unfold chat_model_input
      rw [if_neg hw]
    have hne : welcome_message reg :: msgs ≠ msgs := by
      intro heq
      have hlen := congrArg List.length heq
      simp at hlen
    refine ⟨Or.inr hin, iff_of_false (fun hc => hne (hc.symm.trans hin)) ?_⟩
    simp only [needs_welcome, Bool.or_eq_true, decide_eq_true_eq,
      Bool.not_eq_true', List.any_eq_false, Bool.not_eq_true] at hw
    exact hw

/-- Witness for the amended C9 rule: on a single-message history the
welcome is prepended. -/
theorem welcome_injection_rule_witness :
    chat_model_input [] [⟨.user, "hi", [], ""⟩] =
      welcome_message [] :: [⟨.user, "hi", [], ""⟩] :=
  (welcome_injection_rule [] [⟨.user, "hi", [], ""⟩]).2.mpr (Or.inl (by decide))

/-! ## C10 — the frame of the `chat` node's update -/

/-- C10: every `chat_node` invocation returns an update holding exactly
one message — the model's response on success, the synthesized error
message on failure, never the locally prepended welcome message — and an
unchanged `tool_call_count`; the update carries no other state field
(its type has only the `messages` and `tool_call_count` keys), and
applying it appends exactly one message to the persisted history. -/
theorem chat_node_frame (reg : List ToolDescriptor)
    (model : List Msg → Except String Msg) (st : ChatState) :
    (chat_node reg model st).messages.length = 1 ∧
    ((∃ r, model (chat_model_input reg st.messages) = Except.ok r ∧
        (chat_node reg model st).messages = [r]) ∨
      (∃ e, model (chat_model_input reg st.messages) = Except.error e ∧
        (chat_node reg model st).messages = [chat_error_message e])) ∧
    (chat_node reg model st).tool_call_count = st.tool_call_count ∧
    (chat_step reg model st).messages.length = st.messages.length + 1 := by
  unfold chat_step apply_update chat_node
  cases hm : model (chat_model_input reg st.messages) with
  | ok r => exact ⟨rfl, Or.inl ⟨r, rfl, rfl⟩, rfl, by simp⟩
  | error e => exact ⟨rfl, Or.inr ⟨e, rfl, rfl⟩, rfl, by simp⟩

end LangchainProject
